import Mathlib

/-!
Verification of the fetch-parse-merge pipeline of `src/ingest.py`
(NBA ingest script with legacy fallback).

The Python source is shallowly embedded: JSON documents become the
inductive `JVal`, Python dictionaries become association lists with
unique-key update semantics, Python truthiness becomes `JVal.truthy`,
the `x or y` idiom becomes `pyOr`, and `int(...)` (raising on
non-numeric input) becomes the fallible `pyInt`.  The pandas
`concat` + `drop_duplicates(keep="last")` upsert becomes `dedupLast`
over generic row lists.  HTTP transport and file IO are abstracted as
function parameters, exactly as the script isolates them behind
`http_get_json` and `read_csv`/`to_csv`.
-/

namespace NbaIngest

/-- JSON values as decoded by `requests.Response.json()`.  Python's
`None` (both JSON `null` and the default of `dict.get`) is `jnull`;
numbers are integers (the feeds carry integer scores and counting
stats; floats are not needed by any verified property). -/
inductive JVal where
  | jnull
  | jbool (b : Bool)
  | jnum (n : Int)
  | jstr (s : String)
  | jarr (elems : List JVal)
  | jobj (fields : List (String × JVal))
deriving Repr

mutual

/-- Decidable equality of JSON values (nested inductive, by hand). -/
def JVal.decV : (a b : JVal) → Decidable (a = b)
  | .jnull, .jnull => isTrue rfl
  | .jnull, .jbool _ => isFalse (fun h => nomatch h)
  | .jnull, .jnum _ => isFalse (fun h => nomatch h)
  | .jnull, .jstr _ => isFalse (fun h => nomatch h)
  | .jnull, .jarr _ => isFalse (fun h => nomatch h)
  | .jnull, .jobj _ => isFalse (fun h => nomatch h)
  | .jbool _, .jnull => isFalse (fun h => nomatch h)
  | .jbool a, .jbool b =>
    match decEq a b with
    | isTrue h => isTrue (congrArg JVal.jbool h)
    | isFalse h => isFalse (fun hh => h (JVal.jbool.inj hh))
  | .jbool _, .jnum _ => isFalse (fun h => nomatch h)
  | .jbool _, .jstr _ => isFalse (fun h => nomatch h)
  | .jbool _, .jarr _ => isFalse (fun h => nomatch h)
  | .jbool _, .jobj _ => isFalse (fun h => nomatch h)
  | .jnum _, .jnull => isFalse (fun h => nomatch h)
  | .jnum _, .jbool _ => isFalse (fun h => nomatch h)
  | .jnum a, .jnum b =>
    match decEq a b with
    | isTrue h => isTrue (congrArg JVal.jnum h)
    | isFalse h => isFalse (fun hh => h (JVal.jnum.inj hh))
  | .jnum _, .jstr _ => isFalse (fun h => nomatch h)
  | .jnum _, .jarr _ => isFalse (fun h => nomatch h)
  | .jnum _, .jobj _ => isFalse (fun h => nomatch h)
  | .jstr _, .jnull => isFalse (fun h => nomatch h)
  | .jstr _, .jbool _ => isFalse (fun h => nomatch h)
  | .jstr _, .jnum _ => isFalse (fun h => nomatch h)
  | .jstr a, .jstr b =>
    match decEq a b with
    | isTrue h => isTrue (congrArg JVal.jstr h)
    | isFalse h => isFalse (fun hh => h (JVal.jstr.inj hh))
  | .jstr _, .jarr _ => isFalse (fun h => nomatch h)
  | .jstr _, .jobj _ => isFalse (fun h => nomatch h)
  | .jarr _, .jnull => isFalse (fun h => nomatch h)
  | .jarr _, .jbool _ => isFalse (fun h => nomatch h)
  | .jarr _, .jnum _ => isFalse (fun h => nomatch h)
  | .jarr _, .jstr _ => isFalse (fun h => nomatch h)
  | .jarr xs, .jarr ys =>
    match JVal.decA xs ys with
    | isTrue h => isTrue (congrArg JVal.jarr h)
    | isFalse h => isFalse (fun hh => h (JVal.jarr.inj hh))
  | .jarr _, .jobj _ => isFalse (fun h => nomatch h)
  | .jobj _, .jnull => isFalse (fun h => nomatch h)
  | .jobj _, .jbool _ => isFalse (fun h => nomatch h)
  | .jobj _, .jnum _ => isFalse (fun h => nomatch h)
  | .jobj _, .jstr _ => isFalse (fun h => nomatch h)
  | .jobj _, .jarr _ => isFalse (fun h => nomatch h)
  | .jobj fs, .jobj gs =>
    match JVal.decO fs gs with
    | isTrue h => isTrue (congrArg JVal.jobj h)
    | isFalse h => isFalse (fun hh => h (JVal.jobj.inj hh))

/-- Decidable equality of JSON arrays. -/
def JVal.decA : (xs ys : List JVal) → Decidable (xs = ys)
  | [], [] => isTrue rfl
  | [], _ :: _ => isFalse (fun h => nomatch h)
  | _ :: _, [] => isFalse (fun h => nomatch h)
  | x :: xs, y :: ys =>
    match JVal.decV x y with
    | isFalse h => isFalse (fun hh => h (List.cons.inj hh).1)
    | isTrue h1 =>
      match JVal.decA xs ys with
      | isFalse h => isFalse (fun hh => h (List.cons.inj hh).2)
      | isTrue h2 => isTrue (by rw [h1, h2])

/-- Decidable equality of JSON object field lists. -/
def JVal.decO : (fs gs : List (String × JVal)) → Decidable (fs = gs)
  | [], [] => isTrue rfl
  | [], _ :: _ => isFalse (fun h => nomatch h)
  | _ :: _, [] => isFalse (fun h => nomatch h)
  | (k, v) :: fs, (k2, v2) :: gs =>
    match JVal.decV v v2 with
    | isFalse h => isFalse (fun hh => h (congrArg Prod.snd (List.cons.inj hh).1))
    | isTrue h2 =>
      match decEq k k2 with
      | isFalse h => isFalse (fun hh => h (congrArg Prod.fst (List.cons.inj hh).1))
      | isTrue h1 =>
        match JVal.decO fs gs with
        | isFalse h => isFalse (fun hh => h (List.cons.inj hh).2)
        | isTrue h3 => isTrue (by rw [h1, h2, h3])

end

instance : DecidableEq JVal := JVal.decV

namespace JVal

/-- Python truthiness: `None`, `False`, `0`, `""`, `[]`, `{}` are falsy. -/
def truthy : JVal → Bool
  | jnull => false
  | jbool b => b
  | jnum n => n != 0
  | jstr s => s ≠ ""
  | jarr xs => !xs.isEmpty
  | jobj fs => !fs.isEmpty

/-- `d.get(k, dflt)`: association-list lookup with an explicit
default.  This is the value computed when the receiver is a dict; the
`AttributeError` Python raises when `.get` is invoked on a non-dict
(the `or {}` guards only catch falsy values) is modelled separately by
the `isDict` preconditions of the error-aware normalizer
(`parse_scoreboardE`). -/
def getD (j : JVal) (k : String) (dflt : JVal) : JVal :=
  match j with
  | jobj fs =>
    match fs.find? (fun kv => kv.1 == k) with
    | some kv => kv.2
    | none => dflt
  | _ => dflt

/-- `d.get(k)`: lookup defaulting to `None`. -/
def get (j : JVal) (k : String) : JVal := j.getD k jnull

/-- `d[k] = v` on a dict: replace the binding if the key is present,
append it otherwise.  Non-objects are returned unchanged (the script
only assigns into freshly decoded JSON objects). -/
def set (j : JVal) (k : String) (v : JVal) : JVal :=
  match j with
  | jobj fs =>
    if fs.any (fun kv => kv.1 == k) then
      jobj (fs.map (fun kv => if kv.1 == k then (kv.1, v) else kv))
    else
      jobj (fs ++ [(k, v)])
  | other => other

/-- The elements of a JSON array (`for g in ...` when the value is a
list), and `[]` otherwise.  Python's iteration of truthy non-list
values (characters of a string, keys of a dict, `TypeError` on a
number) is modelled separately by `iterX` in the error-aware
normalizer (`parse_scoreboardE`). -/
def elems : JVal → List JVal
  | jarr xs => xs
  | _ => []

end JVal

open JVal

/-- Python's `a or b`: returns `a` when `a` is truthy, else `b`. -/
def pyOr (a b : JVal) : JVal := if a.truthy then a else b

/-- Value of a nonempty run of decimal digits; `none` when a
non-digit appears. -/
def digitsVal (cs : List Char) : Option Nat :=
  cs.foldl
    (fun acc c =>
      acc.bind (fun a => if c.isDigit then some (a * 10 + (c.toNat - '0'.toNat)) else none))
    (some 0)

/-- `int(s)` on a string: optional surrounding whitespace, optional
sign, then decimal digits; `none` models the `ValueError`. -/
def strToInt (s : String) : Option Int :=
  let t := s.trim
  match t.data with
  | [] => none
  | '+' :: rest => if rest.isEmpty then none else (digitsVal rest).map Int.ofNat
  | '-' :: rest => if rest.isEmpty then none else (digitsVal rest).map (fun n => -(n : Int))
  | cs => (digitsVal cs).map Int.ofNat

/-- `int(x)` on a JSON value: numbers pass through, booleans coerce,
numeric strings parse; everything else raises (`none`). -/
def pyInt : JVal → Option Int
  | jnum n => some n
  | jbool b => some (if b then 1 else 0)
  | jstr s => strToInt s
  | _ => none

/-- A normalized output record: an ordered dict of column name to value,
as built by the `games.append({...})` / `rows.append({...})` literals. -/
abbrev Row := List (String × JVal)

/-- Lookup of a column in a record (`row["k"]` / `row.get("k")`). -/
def rowGet (r : Row) (k : String) : JVal :=
  match r.find? (fun kv => kv.1 == k) with
  | some kv => kv.2
  | none => jnull

/-- A calendar date, as Python's `datetime.date`.  `et_now_date()` is
passed in explicitly as the `today` parameter wherever the script
reads the US-Eastern clock. -/
structure Ymd where
  year : Nat
  month : Nat
  day : Nat
deriving DecidableEq, Repr

/-- Zero-pad the decimal rendering of `n` to width `w`
(`f"{n:04d}"` / `f"{n:02d}"`). -/
def padNum (w : Nat) (n : Nat) : String :=
  let s := toString n
  String.mk (List.replicate (w - s.length) '0') ++ s

/-- `date_yyyymmdd`: render a date as the 8-digit `YYYYMMDD` key. -/
def date_yyyymmdd (d : Ymd) : String :=
  padNum 4 d.year ++ padNum 2 d.month ++ padNum 2 d.day

/-- The two source endpoint families. -/
inductive Family where
  | live
  | legacy
deriving DecidableEq, Repr

/-- Live scoreboard URL keyed by date
(`f"https://cdn.nba.com/static/json/liveData/scoreboard/scoreboard_{ymd}.json"`). -/
def liveScoreboardUrl (ymd : String) : String :=
  "https://cdn.nba.com/static/json/liveData/scoreboard/scoreboard_" ++ ymd ++ ".json"

/-- The live "today" convenience scoreboard URL. -/
def todaysScoreboardUrl : String :=
  "https://cdn.nba.com/static/json/liveData/scoreboard/todaysScoreboard_00.json"

/-- Legacy scoreboard URL, API version 1. -/
def legacyScoreboardUrlV1 (ymd : String) : String :=
  "https://data.nba.net/10s/prod/v1/" ++ ymd ++ "/scoreboard.json"

/-- Legacy scoreboard URL, API version 2. -/
def legacyScoreboardUrlV2 (ymd : String) : String :=
  "https://data.nba.net/10s/prod/v2/" ++ ymd ++ "/scoreboard.json"

/-- Live per-game boxscore URL. -/
def liveBoxscoreUrl (game_id : String) : String :=
  "https://cdn.nba.com/static/json/liveData/boxscore/boxscore_" ++ game_id ++ ".json"

/-- Legacy per-game boxscore URL under a legacy API base. -/
def legacyBoxscoreUrl (base ymd game_id : String) : String :=
  base ++ "/" ++ ymd ++ "/" ++ game_id ++ "_boxscore.json"

/-- The ordered scoreboard candidate list realized by
`fetch_scoreboard`: the date-keyed live URL, then (only when the
requested date is the current ET date) the live "today" URL, then the
two legacy URLs. -/
def scoreboard_candidates (d today : Ymd) : List (String × Family) :=
  let ymd := date_yyyymmdd d
  ([(liveScoreboardUrl ymd, Family.live)] ++
      (if d = today then [(todaysScoreboardUrl, Family.live)] else [])) ++
    [(legacyScoreboardUrlV1 ymd, Family.legacy), (legacyScoreboardUrlV2 ymd, Family.legacy)]

/-- The transport capability (`http_get_json`): `none` is any
transport failure (timeout, non-200, undecodable body). -/
abbrev Transport := String → Option JVal

/-- One fetch loop of the script: try each URL in order, keeping the
first document that is truthy (`if js: ... return js`); a falsy
document falls through to the next candidate exactly like a failure. -/
def tryUrls (t : Transport) : List String → Option JVal
  | [] => none
  | u :: rest =>
    match t u with
    | some js => if js.truthy then some js else tryUrls t rest
    | none => tryUrls t rest

/-- Tag a successful scoreboard document
(`js["_source"], js["_ymd"] = src, ymd`). -/
def tagScoreboard (js : JVal) (src ymd : String) : JVal :=
  (js.set "_source" (jstr src)).set "_ymd" (jstr ymd)

/-- `fetch_scoreboard`: live candidates first (date-keyed, plus the
"today" URL when `d` is the current ET date), then the legacy
candidates; the winning document is tagged with its family and the
`YYYYMMDD` key. -/
def fetch_scoreboard (t : Transport) (d today : Ymd) : Option JVal :=
  let ymd := date_yyyymmdd d
  let liveCands :=
    [liveScoreboardUrl ymd] ++ (if d = today then [todaysScoreboardUrl] else [])
  match tryUrls t liveCands with
  | some js => some (tagScoreboard js "live" ymd)
  | none =>
    match tryUrls t [legacyScoreboardUrlV1 ymd, legacyScoreboardUrlV2 ymd] with
    | some js => some (tagScoreboard js "legacy" ymd)
    | none => none

/-- `fetch_boxscore`: the live per-game URL first; on failure, when a
date hint is available (a truthy `gameDateYmd`), the two legacy API
versions in order.  The winning document is tagged with its family. -/
def fetch_boxscore (t : Transport) (game_id gameDateYmd : String) : Option JVal :=
  match tryUrls t [liveBoxscoreUrl game_id] with
  | some live => some (live.set "_source" (jstr "live"))
  | none =>
    if gameDateYmd ≠ "" then
      match
        tryUrls t
          [legacyBoxscoreUrl "https://data.nba.net/10s/prod/v1" gameDateYmd game_id,
            legacyBoxscoreUrl "https://data.nba.net/10s/prod/v2" gameDateYmd game_id] with
      | some leg => some (leg.set "_source" (jstr "legacy"))
      | none => none
    else none

/-- The list of raw game entries a scoreboard document is iterated
over: `sb.get("games", []) or []` under the live tag,
`js.get("games") or []` under the legacy tag. -/
def scoreboardEntries (js : JVal) : List JVal :=
  if js.get "_source" = jstr "live" then
    (pyOr ((pyOr (js.getD "scoreboard" (jobj [])) (jobj [])).getD "games" (jarr [])) (jarr [])).elems
  else
    (pyOr (js.get "games") (jarr [])).elems

/-- `tc = lambda t: t.get("triCode") or t.get("tricode")`. -/
def tc (t : JVal) : JVal := pyOr (t.get "triCode") (t.get "tricode")

/-- The per-game record built for one raw live scoreboard entry (the
dict literal appended to `games` in the live branch), with the `_ymd`
tag of the surrounding document passed in. -/
def mkLiveScoreboardRow (ymd g : JVal) : Row :=
  let h := pyOr (g.get "homeTeam") (jobj [])
  let a := pyOr (g.get "awayTeam") (jobj [])
  [("gameId", g.get "gameId"),
    ("gameCode", g.get "gameCode"),
    ("gameDateEt", g.get "gameEt"),
    ("gameStatusText", g.get "gameStatusText"),
    ("period", g.get "period"), ("gameClock", g.get "gameClock"),
    ("arenaName", pyOr (g.get "arenaName") (jstr "")),
    ("homeTeamId", h.get "teamId"), ("homeTeamTricode", h.get "teamTricode"),
    ("homeScore", h.get "score"),
    ("awayTeamId", a.get "teamId"), ("awayTeamTricode", a.get "teamTricode"),
    ("awayScore", a.get "score"),
    ("gameDateYmd", ymd), ("_source", jstr "live")]

/-- The per-game record built for one raw legacy scoreboard entry. -/
def mkLegacyScoreboardRow (ymd g : JVal) : Row :=
  let h := pyOr (g.get "hTeam") (jobj [])
  let v := pyOr (g.get "vTeam") (jobj [])
  [("gameId", g.get "gameId"),
    ("gameCode", pyOr (g.get "gameUrlCode") (g.get "gameCode")),
    ("gameDateEt", pyOr (g.get "startTimeEastern") (g.get "startTimeUTC")),
    ("gameStatusText", pyOr (g.get "statusText") (g.get "gameStatusText")),
    ("period", (pyOr (g.get "period") (jobj [])).get "current"),
    ("gameClock", g.get "clock"),
    ("arenaName", pyOr (g.get "arenaName") (jstr "")),
    ("homeTeamId", h.get "teamId"), ("homeTeamTricode", tc h),
    ("homeScore", h.get "score"),
    ("awayTeamId", v.get "teamId"), ("awayTeamTricode", tc v),
    ("awayScore", v.get "score"),
    ("gameDateYmd", ymd), ("_source", jstr "legacy")]

/-- The unified per-game record built for one raw scoreboard entry,
dispatching on the source family tag of the surrounding document. -/
def mkScoreboardRow (js g : JVal) : Row :=
  if js.get "_source" = jstr "live" then mkLiveScoreboardRow (js.get "_ymd") g
  else mkLegacyScoreboardRow (js.get "_ymd") g

/-- `parse_scoreboard`: build one unified record per raw entry, then
keep only the records whose derived `gameId` is truthy
(`return [g for g in games if g.get("gameId")]`). -/
def parse_scoreboard (js : JVal) : List Row :=
  if ¬ js.truthy then []
  else
    ((scoreboardEntries js).map (mkScoreboardRow js)).filter
      (fun r => (rowGet r "gameId").truthy)

/-- Whether a JSON value is a Python dict — the receivers `.get` is
legal on; on every other value `.get` raises `AttributeError`. -/
def isDict : JVal → Bool
  | jobj _ => true
  | _ => false

/-- Python iteration (`for g in x`): a list yields its elements, a
string its one-character substrings, a dict its keys; numbers and
booleans raise `TypeError` (and so would `None`, though the `or []`
guards make that unreachable). -/
def iterX : JVal → Except String (List JVal)
  | jarr xs => Except.ok xs
  | jstr s => Except.ok (s.data.map (fun c => jstr (String.mk [c])))
  | jobj fs => Except.ok (fs.map (fun kv => jstr kv.1))
  | jnull => Except.error "TypeError"
  | jbool _ => Except.error "TypeError"
  | jnum _ => Except.error "TypeError"

/-- Build one record per entry, propagating the first exception — the
loop body of `parse_scoreboard`, which aborts the whole batch when an
entry raises. -/
def mapRowsE (f : JVal → Except String Row) : List JVal → Except String (List Row)
  | [] => Except.ok []
  | g :: gs =>
    match f g with
    | Except.error e => Except.error e
    | Except.ok r =>
      match mapRowsE f gs with
      | Except.error e => Except.error e
      | Except.ok rs => Except.ok (r :: rs)

/-- The live entry builder with Python's exception behavior: the
build raises `AttributeError` exactly when one of the `.get` receivers
(the entry itself, or `g.get("homeTeam") or {}`, or
`g.get("awayTeam") or {}`) is not a dict; otherwise it returns the
pure record `mkLiveScoreboardRow`. -/
def mkLiveScoreboardRowE (ymd g : JVal) : Except String Row :=
  if isDict g then
    if isDict (pyOr (g.get "homeTeam") (jobj [])) then
      if isDict (pyOr (g.get "awayTeam") (jobj [])) then
        Except.ok (mkLiveScoreboardRow ymd g)
      else Except.error "AttributeError"
    else Except.error "AttributeError"
  else Except.error "AttributeError"

/-- The legacy entry builder with Python's exception behavior: the
`.get` receivers are the entry, `g.get("hTeam") or {}`,
`g.get("vTeam") or {}` and `g.get("period") or {}`. -/
def mkLegacyScoreboardRowE (ymd g : JVal) : Except String Row :=
  if isDict g then
    if isDict (pyOr (g.get "hTeam") (jobj [])) then
      if isDict (pyOr (g.get "vTeam") (jobj [])) then
        if isDict (pyOr (g.get "period") (jobj [])) then
          Except.ok (mkLegacyScoreboardRow ymd g)
        else Except.error "AttributeError"
      else Except.error "AttributeError"
    else Except.error "AttributeError"
  else Except.error "AttributeError"

/-- `parse_scoreboard` with Python's exception channel: a falsy
document still yields `[]`, but a truthy non-dict document raises at
`js.get("_source")`, a truthy non-dict scoreboard container raises at
`sb.get("games", [])`, iteration of a truthy non-list raises or feeds
non-dict pseudo-entries to the loop body, and a non-dict entry or
sub-object raises inside the loop, aborting the whole batch.  On
documents where none of this happens it returns exactly
`parse_scoreboard js` (see the amended C7 theorem). -/
def parse_scoreboardE (js : JVal) : Except String (List Row) :=
  if js.truthy then
    if isDict js then
      if js.get "_source" = jstr "live" then
        if isDict (pyOr (js.getD "scoreboard" (jobj [])) (jobj [])) then
          match
            iterX (pyOr ((pyOr (js.getD "scoreboard" (jobj [])) (jobj [])).getD
              "games" (jarr [])) (jarr [])) with
          | Except.error e => Except.error e
          | Except.ok gl =>
            match mapRowsE (mkLiveScoreboardRowE (js.get "_ymd")) gl with
            | Except.error e => Except.error e
            | Except.ok rws => Except.ok (rws.filter (fun r => (rowGet r "gameId").truthy))
        else Except.error "AttributeError"
      else
        match iterX (pyOr (js.get "games") (jarr [])) with
        | Except.error e => Except.error e
        | Except.ok gl =>
          match mapRowsE (mkLegacyScoreboardRowE (js.get "_ymd")) gl with
          | Except.error e => Except.error e
          | Except.ok rws => Except.ok (rws.filter (fun r => (rowGet r "gameId").truthy))
    else Except.error "AttributeError"
  else Except.ok []

/-- The per-team record built in the live branch of
`parse_teams_from_boxscore` (loop body over `boxScore.teams`, with the
enclosing locals passed explicitly).  The two dict literals
`id_to_score = {home_id: home_score, away_id: away_score}` and
`id_to_opp = {home_id: away_id, away_id: home_id}` become conditional
lookups with the later binding winning on a key clash. -/
def mkLiveTeamRow (game_id home_id away_id home_score away_score : JVal) (t : JVal) : Row :=
  let st := pyOr (t.get "statistics") (jobj [])
  let team_id := t.get "teamId"
  let is_home := if team_id = home_id then jnum 1 else if team_id = away_id then jnum 0 else jnull
  let opp_id := if team_id = away_id then home_id else if team_id = home_id then away_id else jnull
  let scoreAt := fun k => if k = away_id then away_score else home_score
  let win :=
    if (team_id = home_id ∨ team_id = away_id) ∧ (opp_id = home_id ∨ opp_id = away_id) then
      match pyInt (scoreAt team_id), pyInt (scoreAt opp_id) with
      | some a, some b => if a > b then jnum 1 else jnum 0
      | _, _ => jnull
    else jnull
  [("gameId", game_id), ("teamId", team_id),
    ("teamTricode", t.get "teamTricode"), ("teamCity", t.get "teamCity"),
    ("teamName", t.get "teamName"),
    ("opponentTeamId", opp_id), ("home", is_home), ("win", win),
    ("points", if t.get "score" ≠ jnull then t.get "score" else st.get "points"),
    ("reboundsTotal", st.get "reboundsTotal"), ("assists", st.get "assists"),
    ("steals", st.get "steals"), ("blocks", st.get "blocks"),
    ("turnovers", st.get "turnovers"),
    ("fieldGoalsMade", st.get "fieldGoalsMade"),
    ("fieldGoalsAttempted", st.get "fieldGoalsAttempted"),
    ("threePointersMade", st.get "threePointersMade"),
    ("threePointersAttempted", st.get "threePointersAttempted"),
    ("freeThrowsMade", st.get "freeThrowsMade"),
    ("freeThrowsAttempted", st.get "freeThrowsAttempted")]

/-- `team_totals(key)`: the legacy stats entry for a team and its
totals (`totals = t.get("totals") or t`, i.e. the flat entry itself
when no `totals` sub-object is nested). -/
def team_totals (stats : JVal) (key : String) : JVal × JVal :=
  let t := pyOr (stats.get key) (jobj [])
  (t, pyOr (t.get "totals") t)

/-- `score_of(meta, totals)`: prefer the game-metadata `score`, then
the totals `points`, then the totals `pts` (a truthiness chain). -/
def score_of (meta totals : JVal) : JVal :=
  pyOr (pyOr (meta.get "score") (totals.get "points")) (totals.get "pts")

/-- `mk(team_key, meta, totals, is_home_flag)`: the per-team record of
the legacy branch of `parse_teams_from_boxscore`, with the enclosing
locals passed explicitly.  The source calls it only with flags 1
(home) and 0 (away). -/
def mk (game game_id home_id away_id home_score away_score : JVal) (team_key : String)
    (meta totals : JVal) (is_home_flag : Int) : Row :=
  let base := pyOr (game.get team_key) (jobj [])
  let team_id := pyOr (base.get "teamId") (meta.get "teamId")
  let opp_id := if is_home_flag = 1 then away_id else if is_home_flag = 0 then home_id else jnull
  let win :=
    if home_score ≠ jnull ∧ away_score ≠ jnull then
      if is_home_flag = 1 then
        match pyInt home_score, pyInt away_score with
        | some hs, some vs => if hs > vs then jnum 1 else jnum 0
        | _, _ => jnull
      else
        match pyInt away_score, pyInt home_score with
        | some vs, some hs => if vs > hs then jnum 1 else jnum 0
        | _, _ => jnull
    else jnull
  [("gameId", game_id), ("teamId", team_id),
    ("teamTricode", pyOr (base.get "triCode") (base.get "tricode")),
    ("teamCity", base.get "teamCity"), ("teamName", base.get "teamName"),
    ("opponentTeamId", opp_id), ("home", jnum is_home_flag), ("win", win),
    ("points", score_of meta totals),
    ("reboundsTotal", pyOr (totals.get "totReb") (totals.get "reboundsTotal")),
    ("assists", totals.get "assists"), ("steals", totals.get "steals"),
    ("blocks", totals.get "blocks"), ("turnovers", totals.get "turnovers"),
    ("fieldGoalsMade", pyOr (totals.get "fgm") (totals.get "fieldGoalsMade")),
    ("fieldGoalsAttempted", pyOr (totals.get "fga") (totals.get "fieldGoalsAttempted")),
    ("threePointersMade",
      pyOr (pyOr (totals.get "tpm") (totals.get "fg3m")) (totals.get "threePointersMade")),
    ("threePointersAttempted",
      pyOr (pyOr (totals.get "tpa") (totals.get "fg3a")) (totals.get "threePointersAttempted")),
    ("freeThrowsMade", pyOr (totals.get "ftm") (totals.get "freeThrowsMade")),
    ("freeThrowsAttempted", pyOr (totals.get "fta") (totals.get "freeThrowsAttempted"))]

/-- The live branch's `teams` local: `(game.get("boxScore") or
{}).get("teams") or []`. -/
def liveTeams (game : JVal) : List JVal :=
  (pyOr ((pyOr (game.get "boxScore") (jobj [])).get "teams") (jarr [])).elems

/-- The live branch's `home` local: `game.get("homeTeam") or {}`. -/
def liveHomeTeam (game : JVal) : JVal := pyOr (game.get "homeTeam") (jobj [])

/-- The live branch's `away` local: `game.get("awayTeam") or {}`. -/
def liveAwayTeam (game : JVal) : JVal := pyOr (game.get "awayTeam") (jobj [])

/-- The live branch of `parse_teams_from_boxscore` applied to the
`game` local: one row per `boxScore.teams` entry, with both declared
scores defaulted to 0 by truthiness (`home.get("score") or 0`). -/
def liveTeamRows (game : JVal) : List Row :=
  (liveTeams game).map
    (mkLiveTeamRow (game.get "gameId") ((liveHomeTeam game).get "teamId")
      ((liveAwayTeam game).get "teamId")
      (pyOr ((liveHomeTeam game).get "score") (jnum 0))
      (pyOr ((liveAwayTeam game).get "score") (jnum 0)))

/-- The legacy branch's `home_id` local:
`(game.get("hTeam") or {}).get("teamId") or ht_meta.get("teamId")`. -/
def legacyHomeId (game stats : JVal) : JVal :=
  pyOr ((pyOr (game.get "hTeam") (jobj [])).get "teamId")
    ((team_totals stats "hTeam").1.get "teamId")

/-- The legacy branch's `away_id` local. -/
def legacyAwayId (game stats : JVal) : JVal :=
  pyOr ((pyOr (game.get "vTeam") (jobj [])).get "teamId")
    ((team_totals stats "vTeam").1.get "teamId")

/-- The legacy branch's `home_score` local: `score_of(ht_meta, ht)`. -/
def legacyHomeScore (stats : JVal) : JVal :=
  score_of (team_totals stats "hTeam").1 (team_totals stats "hTeam").2

/-- The legacy branch's `away_score` local: `score_of(vt_meta, vt)`. -/
def legacyAwayScore (stats : JVal) : JVal :=
  score_of (team_totals stats "vTeam").1 (team_totals stats "vTeam").2

/-- The legacy branch of `parse_teams_from_boxscore` applied to the
`game` and `stats` locals: a home row when `home_id` is truthy, then
an away row when `away_id` is truthy. -/
def legacyTeamRows (game stats : JVal) : List Row :=
  let game_id := game.get "gameId"
  let hp := team_totals stats "hTeam"
  let vp := team_totals stats "vTeam"
  (if (legacyHomeId game stats).truthy then
      [mk game game_id (legacyHomeId game stats) (legacyAwayId game stats)
        (legacyHomeScore stats) (legacyAwayScore stats) "hTeam" hp.1 hp.2 1]
    else []) ++
    (if (legacyAwayId game stats).truthy then
      [mk game game_id (legacyHomeId game stats) (legacyAwayId game stats)
        (legacyHomeScore stats) (legacyAwayScore stats) "vTeam" vp.1 vp.2 0]
    else [])

/-- `parse_teams_from_boxscore`: dispatch on the source family tag;
live documents go through the live row builder over `game`, legacy
documents through the legacy builder over `basicGameData`/`stats`. -/
def parse_teams_from_boxscore (js : JVal) : List Row :=
  if ¬ js.truthy then []
  else if js.get "_source" = jstr "live" then
    liveTeamRows (pyOr (js.get "game") (jobj []))
  else
    legacyTeamRows (pyOr (js.get "basicGameData") (jobj []))
      (pyOr (js.get "stats") (jobj []))

/-- `k.startswith('_')` for the one-character underscore tag marker:
true exactly when the key's first character is an underscore. -/
def startsWithUnderscore (k : String) : Bool :=
  match k.data with
  | [] => false
  | c :: _ => c == '_'

/-- The comprehension `{k: v for k, v in g.items() if not
k.startswith('_')}` applied to every record in `main` before the games
table is persisted. -/
def stripTagKeys (r : Row) : Row :=
  r.filter (fun kv => !(startsWithUnderscore kv.1))

section Merge

variable {R K : Type} [DecidableEq K]

/-- `drop_duplicates(subset=dedupe_keys, keep="last")`: keep a row
exactly when no later row carries the same key; the surviving row
stays at the position of the last occurrence of its key. -/
def dedupLast (key : R → K) : List R → List R
  | [] => []
  | r :: rs =>
    if rs.any (fun x => decide (key x = key r)) then dedupLast key rs
    else r :: dedupLast key rs

/-- `upsert_csv`: read the existing table when present, append the new
rows after it, and de-duplicate by the composite key keeping the last
occurrence.  File IO is abstracted: `old` is the read table (`none`
when the file does not exist) and the result is what is written. -/
def upsert_csv (key : R → K) (old : Option (List R)) (df_new : List R) : List R :=
  match old with
  | some df_old => dedupLast key (df_old ++ df_new)
  | none => dedupLast key df_new

end Merge

/-- A transport post-processed to report a falsy (empty) document as a
plain failure; used to state that the fetch loops already treat the
two identically. -/
def normalizeTransport (t : Transport) : Transport := fun u =>
  match t u with
  | some js => if js.truthy then some js else none
  | none => none

/-- A transport whose every response decodes to the empty JSON object. -/
def emptyDocTransport : Transport := fun _ => some (jobj [])

/-- Concrete live boxscore document whose home team has no `score`
field while the away team scored 100. -/
def liveBoxNoHomeScore : JVal :=
  jobj [("_source", jstr "live"),
    ("game", jobj [("gameId", jstr "0022400001"),
      ("homeTeam", jobj [("teamId", jnum 1610612737)]),
      ("awayTeam", jobj [("teamId", jnum 1610612738), ("score", jnum 100)]),
      ("boxScore", jobj [("teams", jarr
        [jobj [("teamId", jnum 1610612737)], jobj [("teamId", jnum 1610612738)]])])])]

/-- Concrete legacy boxscore document whose home side stores a
game-metadata score of 0 (with totals `points` 95) and a totals `fgm`
of 0 (with `fieldGoalsMade` 33). -/
def legacyBoxZeroFields : JVal :=
  jobj [("_source", jstr "legacy"),
    ("basicGameData", jobj [("gameId", jstr "0021500001"),
      ("hTeam", jobj [("teamId", jstr "1610612737")]),
      ("vTeam", jobj [("teamId", jstr "1610612738")])]),
    ("stats", jobj [
      ("hTeam", jobj [("score", jnum 0),
        ("totals", jobj [("points", jnum 95), ("fgm", jnum 0), ("fieldGoalsMade", jnum 33)])]),
      ("vTeam", jobj [("score", jnum 88)])])]

/-- Concrete legacy boxscore document with no score anywhere on the
home side. -/
def legacyBoxNoHomeScore : JVal :=
  jobj [("_source", jstr "legacy"),
    ("basicGameData", jobj [("gameId", jstr "0021500002"),
      ("hTeam", jobj [("teamId", jstr "1610612737")]),
      ("vTeam", jobj [("teamId", jstr "1610612738")])]),
    ("stats", jobj [
      ("hTeam", jobj [("teamId", jstr "1610612737")]),
      ("vTeam", jobj [("score", jnum 88)])])]

/-- Concrete live scoreboard document with one complete game and one
malformed entry lacking a `gameId`. -/
def liveScoreboardTwoEntries : JVal :=
  jobj [("_source", jstr "live"), ("_ymd", jstr "20240101"),
    ("scoreboard", jobj [("games", jarr [
      jobj [("gameId", jstr "0022400001"),
        ("homeTeam", jobj [("teamId", jnum 1), ("score", jnum 110)]),
        ("awayTeam", jobj [("teamId", jnum 2), ("score", jnum 100)])],
      jobj [("gameCode", jstr "malformed-entry-no-id")]])])]

/-- Concrete live scoreboard document whose games list holds a truthy
non-dict entry ("oops") ahead of a well-formed game. -/
def liveScoreboardBadEntry : JVal :=
  jobj [("_source", jstr "live"), ("_ymd", jstr "20240101"),
    ("scoreboard", jobj [("games", jarr [
      jstr "oops",
      jobj [("gameId", jstr "0022400001"),
        ("homeTeam", jobj [("teamId", jnum 1), ("score", jnum 110)]),
        ("awayTeam", jobj [("teamId", jnum 2), ("score", jnum 100)])]])])]

section MergeLemmas

variable {R K : Type} [DecidableEq K]

theorem dedupLast_sublist (key : R → K) (l : List R) : List.Sublist (dedupLast key l) l := by
  induction l with
  | nil => simp [dedupLast]
  | cons r rs ih =>
    rw [dedupLast]
    split
    · exact ih.cons r
    · exact ih.cons₂ r

theorem dedupLast_countP (key : R → K) (Kv : K) (l : List R) :
    (dedupLast key l).countP (fun r => decide (key r = Kv)) =
      if l.any (fun r => decide (key r = Kv)) then 1 else 0 := by
  induction l with
  | nil => simp [dedupLast]
  | cons r rs ih =>
    rw [dedupLast]
    by_cases hk : key r = Kv
    · by_cases h : rs.any (fun x => decide (key x = key r))
      · rw [if_pos h, ih]
        have hrs : rs.any (fun x => decide (key x = Kv)) = true := by
          simp only [hk] at h; exact h
        simp [List.any_cons, hrs]
      · rw [if_neg h, List.countP_cons, ih]
        have hrs : rs.any (fun x => decide (key x = Kv)) = false := by
          simp only [hk] at h; simpa using h
        simp [List.any_cons, hrs, hk]
    · by_cases h : rs.any (fun x => decide (key x = key r))
      · rw [if_pos h, ih]
        simp [List.any_cons, hk]
      · rw [if_neg h, List.countP_cons, ih]
        simp [List.any_cons, hk]

theorem dedupLast_find (key : R → K) (Kv : K) (l : List R) :
    (dedupLast key l).find? (fun r => decide (key r = Kv)) =
      l.reverse.find? (fun r => decide (key r = Kv)) := by
  induction l with
  | nil => simp [dedupLast]
  | cons r rs ih =>
    rw [dedupLast, List.reverse_cons, List.find?_append]
    by_cases hk : key r = Kv
    · by_cases h : rs.any (fun x => decide (key x = key r))
      · rw [if_pos h]
        have hrs : rs.any (fun x => decide (key x = Kv)) = true := by
          simp only [hk] at h; exact h
        obtain ⟨y, hy, hyk⟩ := List.any_eq_true.mp hrs
        have hsome : rs.reverse.find? (fun r => decide (key r = Kv)) ≠ none := by
          intro hn
          have := List.find?_eq_none.mp hn y (List.mem_reverse.mpr hy)
          exact this hyk
        match hfr : rs.reverse.find? (fun r => decide (key r = Kv)) with
        | some z => rw [ih, hfr]; rfl
        | none => exact absurd hfr hsome
      · rw [if_neg h]
        have hrs : rs.reverse.find? (fun r => decide (key r = Kv)) = none := by
          apply List.find?_eq_none.mpr
          intro x hx
          simp only [decide_eq_true_eq]
          intro hxk
          have : rs.any (fun x => decide (key x = key r)) = true :=
            List.any_eq_true.mpr ⟨x, List.mem_reverse.mp hx, by simp [hxk, hk]⟩
          exact h this
        rw [hrs]
        have hfcons : (r :: dedupLast key rs).find? (fun r => decide (key r = Kv)) = some r := by
          rw [List.find?]
          simp [hk]
        rw [hfcons]
        have : [r].find? (fun r => decide (key r = Kv)) = some r := by
          rw [List.find?]; simp [hk]
        rw [this]; rfl
    · have hone : [r].find? (fun r => decide (key r = Kv)) = none := by
        rw [List.find?]; simp [hk]
      by_cases h : rs.any (fun x => decide (key x = key r))
      · rw [if_pos h, ih, hone]
        cases rs.reverse.find? (fun r => decide (key r = Kv)) <;> rfl
      · rw [if_neg h, hone]
        have hfcons : (r :: dedupLast key rs).find? (fun r => decide (key r = Kv)) =
            (dedupLast key rs).find? (fun r => decide (key r = Kv)) := by
          rw [List.find?]; simp [hk]
        rw [hfcons, ih]
        cases rs.reverse.find? (fun r => decide (key r = Kv)) <;> rfl

theorem dedupLast_keys_nodup (key : R → K) (l : List R) :
    ((dedupLast key l).map key).Nodup := by
  induction l with
  | nil => simp [dedupLast]
  | cons r rs ih =>
    rw [dedupLast]
    split
    · exact ih
    · rename_i h
      simp only [List.map_cons, List.nodup_cons]
      refine ⟨?_, ih⟩
      intro hmem
      obtain ⟨x, hx, hkey⟩ := List.mem_map.mp hmem
      have hxrs : x ∈ rs := (dedupLast_sublist key rs).subset hx
      exact h (List.any_eq_true.mpr ⟨x, hxrs, by simp [hkey]⟩)

theorem mem_key_dedupLast (key : R → K) (Kv : K) (l : List R) :
    (∃ r ∈ dedupLast key l, key r = Kv) ↔ ∃ r ∈ l, key r = Kv := by
  induction l with
  | nil => simp [dedupLast]
  | cons r rs ih =>
    rw [dedupLast]
    split
    · rename_i h
      rw [ih]
      constructor
      · rintro ⟨x, hx, hk⟩
        exact ⟨x, List.mem_cons_of_mem _ hx, hk⟩
      · rintro ⟨x, hx, hk⟩
        rcases List.mem_cons.mp hx with heq | hx'
        · obtain ⟨y, hy, hyk⟩ := List.any_eq_true.mp h
          refine ⟨y, hy, ?_⟩
          simp only [decide_eq_true_eq] at hyk
          rw [hyk, ← heq, hk]
        · exact ⟨x, hx', hk⟩
    · rename_i h
      constructor
      · rintro ⟨x, hx, hk⟩
        rcases List.mem_cons.mp hx with heq | hx'
        · exact ⟨r, List.mem_cons_self r rs, heq ▸ hk⟩
        · exact ⟨x, List.mem_cons_of_mem _ ((dedupLast_sublist key rs).subset hx'), hk⟩
      · rintro ⟨x, hx, hk⟩
        rcases List.mem_cons.mp hx with heq | hx'
        · exact ⟨r, List.mem_cons_self r (dedupLast key rs), heq ▸ hk⟩
        · obtain ⟨y, hy, hyk⟩ := ih.mpr ⟨x, hx', hk⟩
          exact ⟨y, List.mem_cons_of_mem _ hy, hyk⟩

theorem dedupLast_eq_self (key : R → K) (l : List R) (h : (l.map key).Nodup) :
    dedupLast key l = l := by
  induction l with
  | nil => rfl
  | cons r rs ih =>
    simp only [List.map_cons, List.nodup_cons] at h
    rw [dedupLast]
    have hany : ¬ rs.any (fun x => decide (key x = key r)) = true := by
      intro hc
      obtain ⟨x, hx, hxk⟩ := List.any_eq_true.mp hc
      simp only [decide_eq_true_eq] at hxk
      exact h.1 (List.mem_map.mpr ⟨x, hx, hxk⟩)
    rw [if_neg hany, ih h.2]

theorem dedupLast_append (key : R → K) (a b : List R) :
    dedupLast key (a ++ b) =
      dedupLast key (a.filter (fun r => !(b.any (fun x => decide (key x = key r))))) ++
        dedupLast key b := by
  induction a with
  | nil => simp [dedupLast]
  | cons r a' ih =>
    rw [List.cons_append, dedupLast, List.any_append, List.filter_cons]
    by_cases hb : b.any (fun x => decide (key x = key r)) = true
    · rw [if_pos (by simp [hb]), ih, if_neg (by simp [hb])]
    · by_cases ha : a'.any (fun x => decide (key x = key r)) = true
      · rw [if_pos (by simp [ha]), ih, if_pos (by simp [hb])]
        rw [dedupLast]
        have hkeep :
            (a'.filter (fun r => !(b.any (fun x => decide (key x = key r))))).any
              (fun x => decide (key x = key r)) = true := by
          obtain ⟨x, hx, hxk⟩ := List.any_eq_true.mp ha
          simp only [decide_eq_true_eq] at hxk
          refine List.any_eq_true.mpr ⟨x, ?_, by simp [hxk]⟩
          refine List.mem_filter.mpr ⟨hx, ?_⟩
          have : b.any (fun y => decide (key y = key x)) = false := by
            simp only [hxk]
            simpa using hb
          simp [this]
        rw [if_pos hkeep]
      · rw [if_neg (by simp [ha, hb]), if_pos (by simp [hb])]
        rw [dedupLast]
        have hkeep :
            (a'.filter (fun r => !(b.any (fun x => decide (key x = key r))))).any
              (fun x => decide (key x = key r)) = false := by
          by_contra hc
          simp only [Bool.not_eq_false] at hc
          obtain ⟨x, hx, hxk⟩ := List.any_eq_true.mp hc
          exact ha (List.any_eq_true.mpr ⟨x, (List.mem_filter.mp hx).1, hxk⟩)
        rw [if_neg (by simp [hkeep]), ih, List.cons_append]

end MergeLemmas

theorem liveScoreboardUrl_ne_todays (ymd : String) :
    liveScoreboardUrl ymd ≠ todaysScoreboardUrl := by
  intro h
  have hd0 :
      ("https://cdn.nba.com/static/json/liveData/scoreboard/scoreboard_".data ++ ymd.data) ++
          ".json".data = todaysScoreboardUrl.data := congrArg String.data h
  rw [List.append_assoc] at hd0
  have h52 :
      ("https://cdn.nba.com/static/json/liveData/scoreboard/scoreboard_".data ++
          (ymd.data ++ ".json".data))[52]? = todaysScoreboardUrl.data[52]? :=
    congrArg (fun l => l[52]?) hd0
  rw [List.getElem?_append_left (by decide)] at h52
  exact absurd h52 (by decide)

theorem legacyScoreboardUrlV1_ne_todays (ymd : String) :
    legacyScoreboardUrlV1 ymd ≠ todaysScoreboardUrl := by
  intro h
  have hd0 :
      ("https://data.nba.net/10s/prod/v1/".data ++ ymd.data) ++ "/scoreboard.json".data =
        todaysScoreboardUrl.data := congrArg String.data h
  rw [List.append_assoc] at hd0
  have h8 :
      ("https://data.nba.net/10s/prod/v1/".data ++
          (ymd.data ++ "/scoreboard.json".data))[8]? = todaysScoreboardUrl.data[8]? :=
    congrArg (fun l => l[8]?) hd0
  rw [List.getElem?_append_left (by decide)] at h8
  exact absurd h8 (by decide)

theorem legacyScoreboardUrlV2_ne_todays (ymd : String) :
    legacyScoreboardUrlV2 ymd ≠ todaysScoreboardUrl := by
  intro h
  have hd0 :
      ("https://data.nba.net/10s/prod/v2/".data ++ ymd.data) ++ "/scoreboard.json".data =
        todaysScoreboardUrl.data := congrArg String.data h
  rw [List.append_assoc] at hd0
  have h8 :
      ("https://data.nba.net/10s/prod/v2/".data ++
          (ymd.data ++ "/scoreboard.json".data))[8]? = todaysScoreboardUrl.data[8]? :=
    congrArg (fun l => l[8]?) hd0
  rw [List.getElem?_append_left (by decide)] at h8
  exact absurd h8 (by decide)

theorem tryUrls_normalize (t : Transport) (urls : List String) :
    tryUrls (normalizeTransport t) urls = tryUrls t urls := by
  induction urls with
  | nil => rfl
  | cons u rest ih =>
    rw [tryUrls, tryUrls]
    have hnt : normalizeTransport t u =
        match t u with
        | some js => if js.truthy then some js else none
        | none => none := rfl
    cases ht : t u with
    | none => rw [hnt, ht]; exact ih
    | some js =>
      rw [hnt, ht]
      by_cases hj : js.truthy <;> simp [hj, ih]

theorem tryUrls_all_falsy (t : Transport) (urls : List String)
    (h : ∀ u js, t u = some js → js.truthy = false) : tryUrls t urls = none := by
  induction urls with
  | nil => rfl
  | cons u rest ih =>
    rw [tryUrls]
    cases ht : t u with
    | none => exact ih
    | some js => simp [h u js ht, ih]

theorem tryUrls_truthy (t : Transport) (urls : List String) (js : JVal)
    (h : tryUrls t urls = some js) : js.truthy = true := by
  induction urls with
  | nil => simp [tryUrls] at h
  | cons u rest ih =>
    rw [tryUrls] at h
    cases ht : t u with
    | none => rw [ht] at h; exact ih h
    | some js' =>
      rw [ht] at h
      by_cases hj : js'.truthy
      · simp only [hj, if_pos] at h
        cases h
        exact hj
      · simp only [hj, Bool.false_eq_true, if_neg, Bool.not_false] at h
        exact ih h

theorem set_truthy (js : JVal) (k : String) (v : JVal) (h : js.truthy = true) :
    (js.set k v).truthy = true := by
  cases js with
  | jobj fs =>
    cases fs with
    | nil => simp [JVal.truthy] at h
    | cons f fs' =>
      rw [JVal.set]
      split <;> simp [JVal.truthy, List.isEmpty]
  | jnull => simpa [JVal.set] using h
  | jbool b => simpa [JVal.set] using h
  | jnum n => simpa [JVal.set] using h
  | jstr s => simpa [JVal.set] using h
  | jarr xs => simpa [JVal.set] using h

theorem rowGet_mkScoreboardRow_gameId (js g : JVal) :
    rowGet (mkScoreboardRow js g) "gameId" = g.get "gameId" := by
  rw [mkScoreboardRow]
  split <;> rfl

theorem mkScoreboardRow_live (js g : JVal) (hsrc : js.get "_source" = jstr "live") :
    mkScoreboardRow js g = mkLiveScoreboardRow (js.get "_ymd") g := by
  rw [mkScoreboardRow, if_pos hsrc]

theorem mkScoreboardRow_legacy (js g : JVal) (hsrc : ¬ js.get "_source" = jstr "live") :
    mkScoreboardRow js g = mkLegacyScoreboardRow (js.get "_ymd") g := by
  rw [mkScoreboardRow, if_neg hsrc]

theorem pyOr_cases (a b : JVal) : pyOr a b = b ∨ (pyOr a b).truthy = true := by
  rw [pyOr]
  split
  · rename_i h
    exact Or.inr h
  · exact Or.inl rfl

theorem mkLiveScoreboardRowE_ok (ymd g : JVal) (row : Row)
    (h : mkLiveScoreboardRowE ymd g = Except.ok row) : row = mkLiveScoreboardRow ymd g := by
  rw [mkLiveScoreboardRowE] at h
  split at h
  · split at h
    · split at h
      · cases h
        rfl
      · exact Except.noConfusion h
    · exact Except.noConfusion h
  · exact Except.noConfusion h

theorem mkLegacyScoreboardRowE_ok (ymd g : JVal) (row : Row)
    (h : mkLegacyScoreboardRowE ymd g = Except.ok row) :
    row = mkLegacyScoreboardRow ymd g := by
  rw [mkLegacyScoreboardRowE] at h
  split at h
  · split at h
    · split at h
      · split at h
        · cases h
          rfl
        · exact Except.noConfusion h
      · exact Except.noConfusion h
    · exact Except.noConfusion h
  · exact Except.noConfusion h

theorem mapRowsE_ok_map (f : JVal → Except String Row) (tf : JVal → Row)
    (hf : ∀ g r, f g = Except.ok r → r = tf g) :
    ∀ (gl : List JVal) (rws : List Row), mapRowsE f gl = Except.ok rws → rws = gl.map tf := by
  intro gl
  induction gl with
  | nil =>
    intro rws h
    rw [mapRowsE] at h
    cases h
    rfl
  | cons g gs ih =>
    intro rws h
    rw [mapRowsE] at h
    cases hfg : f g with
    | error e =>
      rw [hfg] at h
      exact Except.noConfusion h
    | ok r =>
      rw [hfg] at h
      cases hrec : mapRowsE f gs with
      | error e =>
        rw [hrec] at h
        exact Except.noConfusion h
      | ok rs =>
        rw [hrec] at h
        cases h
        rw [List.map_cons, ← hf g r hfg, ih rs hrec]

theorem iter_ok_elems (E : JVal) (f : JVal → Except String Row)
    (hstr : ∀ s, f (jstr s) = Except.error "AttributeError")
    (gl : List JVal) (rws : List Row)
    (hE : E = jarr [] ∨ E.truthy = true)
    (hit : iterX E = Except.ok gl)
    (hmap : mapRowsE f gl = Except.ok rws) : gl = E.elems := by
  cases E with
  | jarr xs =>
    rw [iterX] at hit
    cases hit
    rfl
  | jstr s =>
    rcases hE with he | ht
    · exact JVal.noConfusion he
    · have hs : ¬ s = "" := by simpa [JVal.truthy] using ht
      rw [iterX] at hit
      cases hit
      cases hd : s.data with
      | nil =>
        refine absurd ?_ hs
        cases s with
        | mk data =>
          rw [show (String.mk data).data = data from rfl] at hd
          rw [hd]
      | cons c cs =>
        rw [hd] at hmap
        simp [mapRowsE, List.map_cons, hstr] at hmap
  | jobj fs =>
    rcases hE with he | ht
    · exact JVal.noConfusion he
    · rw [iterX] at hit
      cases hit
      cases fs with
      | nil => simp [JVal.truthy, List.isEmpty] at ht
      | cons kv rest => simp [mapRowsE, List.map_cons, hstr] at hmap
  | jnull => simp [iterX] at hit
  | jbool b => simp [iterX] at hit
  | jnum n => simp [iterX] at hit

theorem parse_teams_eq_live (js : JVal) (hT : js.truthy = true)
    (hsrc : js.get "_source" = jstr "live") :
    parse_teams_from_boxscore js = liveTeamRows (pyOr (js.get "game") (jobj [])) := by
  rw [parse_teams_from_boxscore, if_neg (by simp [hT]), if_pos hsrc]

theorem parse_teams_eq_legacy (js : JVal) (hT : js.truthy = true)
    (hsrc : ¬ js.get "_source" = jstr "live") :
    parse_teams_from_boxscore js =
      legacyTeamRows (pyOr (js.get "basicGameData") (jobj []))
        (pyOr (js.get "stats") (jobj [])) := by
  rw [parse_teams_from_boxscore, if_neg (by simp [hT]), if_neg hsrc]

theorem rowGet_mk_points (game game_id home_id away_id home_score away_score : JVal)
    (team_key : String) (meta totals : JVal) (flag : Int) :
    rowGet (mk game game_id home_id away_id home_score away_score team_key meta totals flag)
      "points" = score_of meta totals := rfl

theorem rowGet_mk_fieldGoalsMade (game game_id home_id away_id home_score away_score : JVal)
    (team_key : String) (meta totals : JVal) (flag : Int) :
    rowGet (mk game game_id home_id away_id home_score away_score team_key meta totals flag)
      "fieldGoalsMade" = pyOr (totals.get "fgm") (totals.get "fieldGoalsMade") := rfl

theorem rowGet_mk_home (game game_id home_id away_id home_score away_score : JVal)
    (team_key : String) (meta totals : JVal) (flag : Int) :
    rowGet (mk game game_id home_id away_id home_score away_score team_key meta totals flag)
      "home" = jnum flag := rfl

theorem rowGet_mk_win (game game_id home_id away_id home_score away_score : JVal)
    (team_key : String) (meta totals : JVal) (flag : Int) :
    rowGet (mk game game_id home_id away_id home_score away_score team_key meta totals flag)
      "win" =
      (if home_score ≠ jnull ∧ away_score ≠ jnull then
        if flag = 1 then
          match pyInt home_score, pyInt away_score with
          | some hs, some vs => if hs > vs then jnum 1 else jnum 0
          | _, _ => jnull
        else
          match pyInt away_score, pyInt home_score with
          | some vs, some hs => if vs > hs then jnum 1 else jnum 0
          | _, _ => jnull
      else jnull) := rfl

theorem rowGet_mkLiveTeamRow_teamId (game_id home_id away_id home_score away_score t : JVal) :
    rowGet (mkLiveTeamRow game_id home_id away_id home_score away_score t) "teamId" =
      t.get "teamId" := rfl

theorem rowGet_mkLiveTeamRow_win (game_id home_id away_id home_score away_score t : JVal) :
    rowGet (mkLiveTeamRow game_id home_id away_id home_score away_score t) "win" =
      (if (t.get "teamId" = home_id ∨ t.get "teamId" = away_id) ∧
          ((if t.get "teamId" = away_id then home_id
            else if t.get "teamId" = home_id then away_id else jnull) = home_id ∨
            (if t.get "teamId" = away_id then home_id
            else if t.get "teamId" = home_id then away_id else jnull) = away_id) then
        match
          pyInt (if t.get "teamId" = away_id then away_score else home_score),
          pyInt
            (if (if t.get "teamId" = away_id then home_id
                else if t.get "teamId" = home_id then away_id else jnull) = away_id then
              away_score
            else home_score) with
        | some a, some b => if a > b then jnum 1 else jnum 0
        | _, _ => jnull
      else jnull) := rfl

theorem pyOr_falsy0 (x : JVal) : pyOr (jnum 0) x = x := rfl

theorem pyInt_ne_jnull (x : JVal) (n : Int) (h : pyInt x = some n) : x ≠ jnull := by
  intro hx
  rw [hx] at h
  simp [pyInt] at h

/-- C10: in the legacy team parser every field-fallback chain selects
by truthiness, not presence: when the preferred game-metadata score
holds 0 the produced home record's `points` carries the totals
fallback chain's value, and when the preferred totals `fgm` holds 0
the record's `fieldGoalsMade` carries the fallback key's value (or
null). -/
theorem claim10_legacy_truthiness_fallback (js game stats : JVal)
    (hT : js.truthy = true) (hsrc : ¬ js.get "_source" = jstr "live")
    (hg : pyOr (js.get "basicGameData") (jobj []) = game)
    (hst : pyOr (js.get "stats") (jobj []) = stats)
    (hscore0 : (team_totals stats "hTeam").1.get "score" = jnum 0)
    (hfgm0 : (team_totals stats "hTeam").2.get "fgm" = jnum 0)
    (hhid : (legacyHomeId game stats).truthy = true) :
    ∃ r rest, parse_teams_from_boxscore js = r :: rest ∧
      rowGet r "points" =
        pyOr ((team_totals stats "hTeam").2.get "points")
          ((team_totals stats "hTeam").2.get "pts") ∧
      rowGet r "fieldGoalsMade" = (team_totals stats "hTeam").2.get "fieldGoalsMade" := by
  rw [parse_teams_eq_legacy js hT hsrc, hg, hst]
  have hsplit : legacyTeamRows game stats =
      mk game (game.get "gameId") (legacyHomeId game stats) (legacyAwayId game stats)
        (legacyHomeScore stats) (legacyAwayScore stats) "hTeam"
        (team_totals stats "hTeam").1 (team_totals stats "hTeam").2 1 ::
      (if (legacyAwayId game stats).truthy then
        [mk game (game.get "gameId") (legacyHomeId game stats) (legacyAwayId game stats)
          (legacyHomeScore stats) (legacyAwayScore stats) "vTeam"
          (team_totals stats "vTeam").1 (team_totals stats "vTeam").2 0]
      else []) := by
    simp only [legacyTeamRows]
    rw [if_pos hhid]
    rfl
  refine ⟨_, _, hsplit, ?_, ?_⟩
  · rw [rowGet_mk_points]
    simp only [score_of]
    rw [hscore0, pyOr_falsy0]
  · rw [rowGet_mk_fieldGoalsMade, hfgm0, pyOr_falsy0]

/-- Witness for C10: with metadata score 0 (totals points 95) and
totals `fgm` 0 (`fieldGoalsMade` 33), the home record carries 95 and
33. -/
theorem claim10_legacy_truthiness_fallback_witness :
    ∃ r rest, parse_teams_from_boxscore legacyBoxZeroFields = r :: rest ∧
      rowGet r "points" = jnum 95 ∧
      rowGet r "fieldGoalsMade" = jnum 33 :=
  claim10_legacy_truthiness_fallback legacyBoxZeroFields
    (pyOr (legacyBoxZeroFields.get "basicGameData") (jobj []))
    (pyOr (legacyBoxZeroFields.get "stats") (jobj []))
    rfl (by decide) rfl rfl rfl rfl rfl

/-- C1 counterexample: in the live family a missing score is not
reported as null.  For the concrete live boxscore document whose home
team has no `score` field (away scored 100), the normalizer emits
`win = 0` for the home team and `win = 1` for the away team — both
non-null — because the missing score was silently replaced by 0. -/
theorem claim1_win_counterexample :
    (parse_teams_from_boxscore liveBoxNoHomeScore).map (fun r => rowGet r "win") =
      [jnum 0, jnum 1] ∧
    jnum 0 ≠ jnull ∧ jnum 1 ≠ jnull :=
  ⟨rfl, by decide, by decide⟩

/-- C1 (amended): the win flag of the team normalizer.  Legacy family:
null whenever either side's score is missing or fails integer
coercion (the `int()` calls are guarded by `score is not None` and a
bare `except`; a missing score is exactly one whose coercion fails,
since `int(None)` raises), and 1/0 by integer comparison when both
scores coerce.  Live family: each declared score is first defaulted by
truthiness to 0 (`home.get("score") or 0`), so `win` is 1/0 by
comparing the substituted values even when a score is missing, and is
null when either substituted score fails integer coercion (or a team
id matches neither declared side).  In all cases the computation is
total — it never raises. -/
theorem claim1_win_flag :
    (∀ js game stats, js.truthy = true → ¬ js.get "_source" = jstr "live" →
      pyOr (js.get "basicGameData") (jobj []) = game →
      pyOr (js.get "stats") (jobj []) = stats →
      (pyInt (legacyHomeScore stats) = none ∨ pyInt (legacyAwayScore stats) = none) →
      ∀ r ∈ parse_teams_from_boxscore js, rowGet r "win" = jnull) ∧
    (∀ js game stats (hs vs : Int), js.truthy = true → ¬ js.get "_source" = jstr "live" →
      pyOr (js.get "basicGameData") (jobj []) = game →
      pyOr (js.get "stats") (jobj []) = stats →
      pyInt (legacyHomeScore stats) = some hs →
      pyInt (legacyAwayScore stats) = some vs →
      ∀ r ∈ parse_teams_from_boxscore js,
        (rowGet r "home" = jnum 1 →
          rowGet r "win" = (if hs > vs then jnum 1 else jnum 0)) ∧
        (rowGet r "home" = jnum 0 →
          rowGet r "win" = (if vs > hs then jnum 1 else jnum 0))) ∧
    (∀ js game (a b : Int), js.truthy = true → js.get "_source" = jstr "live" →
      pyOr (js.get "game") (jobj []) = game →
      (liveHomeTeam game).get "teamId" ≠ (liveAwayTeam game).get "teamId" →
      pyInt (pyOr ((liveHomeTeam game).get "score") (jnum 0)) = some a →
      pyInt (pyOr ((liveAwayTeam game).get "score") (jnum 0)) = some b →
      ∀ r ∈ parse_teams_from_boxscore js,
        (rowGet r "teamId" = (liveHomeTeam game).get "teamId" →
          rowGet r "win" = (if a > b then jnum 1 else jnum 0)) ∧
        (rowGet r "teamId" = (liveAwayTeam game).get "teamId" →
          rowGet r "win" = (if b > a then jnum 1 else jnum 0))) ∧
    (∀ js game, js.truthy = true → js.get "_source" = jstr "live" →
      pyOr (js.get "game") (jobj []) = game →
      (liveHomeTeam game).get "teamId" ≠ (liveAwayTeam game).get "teamId" →
      (pyInt (pyOr ((liveHomeTeam game).get "score") (jnum 0)) = none ∨
        pyInt (pyOr ((liveAwayTeam game).get "score") (jnum 0)) = none) →
      ∀ r ∈ parse_teams_from_boxscore js, rowGet r "win" = jnull) := by
  refine ⟨?_, ?_, ?_, ?_⟩
  · intro js game stats hT hsrc hg hst hs0 r hr
    rw [parse_teams_eq_legacy js hT hsrc, hg, hst] at hr
    simp only [legacyTeamRows] at hr
    rcases List.mem_append.mp hr with h | h
    · split at h
      · rw [List.mem_singleton] at h
        subst h
        rw [rowGet_mk_win]
        by_cases hguard : legacyHomeScore stats ≠ jnull ∧ legacyAwayScore stats ≠ jnull
        · rw [if_pos hguard, if_pos rfl]
          rcases hs0 with hpn | han
          · rw [hpn]
          · rw [han]
            cases hph : pyInt (legacyHomeScore stats) <;> rfl
        · rw [if_neg hguard]
      · simp at h
    · split at h
      · rw [List.mem_singleton] at h
        subst h
        rw [rowGet_mk_win]
        by_cases hguard : legacyHomeScore stats ≠ jnull ∧ legacyAwayScore stats ≠ jnull
        · rw [if_pos hguard, if_neg (by decide : ¬ (0 : Int) = 1)]
          rcases hs0 with hpn | han
          · rw [hpn]
            cases hpa : pyInt (legacyAwayScore stats) <;> rfl
          · rw [han]
        · rw [if_neg hguard]
      · simp at h
  · intro js game stats hs vs hT hsrc hg hst hh hv r hr
    rw [parse_teams_eq_legacy js hT hsrc, hg, hst] at hr
    simp only [legacyTeamRows] at hr
    have hguard : legacyHomeScore stats ≠ jnull ∧ legacyAwayScore stats ≠ jnull :=
      ⟨pyInt_ne_jnull _ _ hh, pyInt_ne_jnull _ _ hv⟩
    rcases List.mem_append.mp hr with h | h
    · split at h
      · rw [List.mem_singleton] at h
        subst h
        constructor
        · intro _
          rw [rowGet_mk_win, if_pos hguard, if_pos rfl, hh, hv]
        · intro hcon
          rw [rowGet_mk_home] at hcon
          exact absurd (JVal.jnum.inj hcon) (by decide)
      · simp at h
    · split at h
      · rw [List.mem_singleton] at h
        subst h
        constructor
        · intro hcon
          rw [rowGet_mk_home] at hcon
          exact absurd (JVal.jnum.inj hcon) (by decide)
        · intro _
          rw [rowGet_mk_win, if_pos hguard, if_neg (by decide), hv, hh]
      · simp at h
  · intro js game a b hT hsrc hg hne ha hb r hr
    rw [parse_teams_eq_live js hT hsrc, hg, liveTeamRows] at hr
    obtain ⟨t, ht, rfl⟩ := List.mem_map.mp hr
    have hne' : (liveAwayTeam game).get "teamId" ≠ (liveHomeTeam game).get "teamId" :=
      Ne.symm hne
    constructor
    · intro htid
      rw [rowGet_mkLiveTeamRow_teamId] at htid
      rw [rowGet_mkLiveTeamRow_win, htid]
      simp only [hne, if_false, if_true, eq_self_iff_true, true_or, or_true, and_self,
        if_neg hne, if_pos rfl, ite_true, ite_false]
      rw [ha, hb]
    · intro htid
      rw [rowGet_mkLiveTeamRow_teamId] at htid
      rw [rowGet_mkLiveTeamRow_win, htid]
      simp only [hne, hne', if_false, if_true, eq_self_iff_true, true_or, or_true, and_self,
        if_neg hne, if_neg hne', if_pos rfl, ite_true, ite_false]
      rw [hb, ha]
  · intro js game hT hsrc hg hne hsc r hr
    rw [parse_teams_eq_live js hT hsrc, hg, liveTeamRows] at hr
    obtain ⟨t, ht, rfl⟩ := List.mem_map.mp hr
    have hne' : (liveAwayTeam game).get "teamId" ≠ (liveHomeTeam game).get "teamId" :=
      Ne.symm hne
    rw [rowGet_mkLiveTeamRow_win]
    by_cases h1 : t.get "teamId" = (liveHomeTeam game).get "teamId"
    · rw [h1]
      simp only [hne, if_false, eq_self_iff_true, if_pos rfl, true_or, or_true, and_self,
        if_neg hne, ite_true, ite_false]
      rcases hsc with hH | hA
      · rw [hH]
      · rw [hA]
        cases hph : pyInt (pyOr ((liveHomeTeam game).get "score") (jnum 0)) <;> rfl
    · by_cases h2 : t.get "teamId" = (liveAwayTeam game).get "teamId"
      · rw [h2]
        simp only [hne, hne', if_false, eq_self_iff_true, if_pos rfl, true_or, or_true,
          and_self, if_neg hne, if_neg hne', ite_true, ite_false]
        rcases hsc with hH | hA
        · rw [hH]
          cases hpa : pyInt (pyOr ((liveAwayTeam game).get "score") (jnum 0)) <;> rfl
        · rw [hA]
      · rw [if_neg (fun hc => hc.1.elim h1 h2)]

/-- Witness for the amended C1: the legacy document with no home-side
score yields null win flags. -/
theorem claim1_win_flag_witness :
    ∀ r ∈ parse_teams_from_boxscore legacyBoxNoHomeScore, rowGet r "win" = jnull :=
  claim1_win_flag.1 legacyBoxNoHomeScore
    (pyOr (legacyBoxNoHomeScore.get "basicGameData") (jobj []))
    (pyOr (legacyBoxNoHomeScore.get "stats") (jobj []))
    rfl (by decide) rfl rfl (Or.inl rfl)

/-- C2: when a key `Kv` occurs both in the existing table and in the
new batch, the merged table holds exactly one row with that key, and
that row is the last row of the batch carrying `Kv` (so its non-key
values are the new row's, and among several new rows sharing the key
the last one in batch order wins). -/
theorem claim2_merge_precedence {R K : Type} [DecidableEq K] (key : R → K)
    (old df_new : List R) (Kv : K)
    (hold : ∃ r ∈ old, key r = Kv) (hnew : ∃ r ∈ df_new, key r = Kv) :
    (upsert_csv key (some old) df_new).countP (fun r => decide (key r = Kv)) = 1 ∧
    (upsert_csv key (some old) df_new).find? (fun r => decide (key r = Kv)) =
      df_new.reverse.find? (fun r => decide (key r = Kv)) := by
  have hanynew : df_new.any (fun r => decide (key r = Kv)) = true := by
    obtain ⟨r, hr, hk⟩ := hnew
    exact List.any_eq_true.mpr ⟨r, hr, by simp [hk]⟩
  constructor
  · rw [upsert_csv, dedupLast_countP]
    rw [if_pos (by rw [List.any_append]; simp [hanynew])]
  · rw [upsert_csv, dedupLast_find, List.reverse_append, List.find?_append]
    cases hfr : df_new.reverse.find? (fun r => decide (key r = Kv)) with
    | some z => rfl
    | none =>
      obtain ⟨r, hr, hk⟩ := hnew
      have := List.find?_eq_none.mp hfr r (List.mem_reverse.mpr hr)
      simp [hk] at this

/-- Witness for C2: merging stored `("G1", 90)` with new `("G1", 95)`
leaves one `G1` row, the new one. -/
theorem claim2_merge_precedence_witness :
    (upsert_csv (fun r : String × Nat => r.1) (some [("G1", 90)]) [("G1", 95)]).countP
        (fun r => decide (r.1 = "G1")) = 1 ∧
    (upsert_csv (fun r : String × Nat => r.1) (some [("G1", 90)]) [("G1", 95)]).find?
        (fun r => decide (r.1 = "G1")) =
      [("G1", 95)].reverse.find? (fun r => decide (r.1 = "G1")) :=
  claim2_merge_precedence (fun r : String × Nat => r.1) [("G1", 90)] [("G1", 95)] "G1"
    (by decide) (by decide)

/-- C3 counterexample: a key present in both tables does NOT survive
at the position of its first occurrence.  With existing rows
`[k1, k2]` and new row `k1`, the merged table is `[k2, k1]` — the `k1`
row has moved to the end (the position of its last occurrence) — and
not `[k1, k2]` as position-of-first-occurrence would give. -/
theorem claim3_position_counterexample :
    upsert_csv (fun r : String × Nat => r.1) (some [("k1", 1), ("k2", 2)]) [("k1", 3)] =
      [("k2", 2), ("k1", 3)] ∧
    upsert_csv (fun r : String × Nat => r.1) (some [("k1", 1), ("k2", 2)]) [("k1", 3)] ≠
      [("k1", 3), ("k2", 2)] :=
  ⟨rfl, by decide⟩

/-- C3 (amended): a key occurring in both the existing table and the
batch survives with the values of its last occurrence, but at the
position of that *last* occurrence: the merged table decomposes into
the surviving old rows (those whose key the batch does not re-fetch)
followed by the de-duplicated batch, and the conflicting key's row
lives in the trailing batch segment, equal to the last batch row with
that key. -/
theorem claim3_last_position {R K : Type} [DecidableEq K] (key : R → K)
    (old df_new : List R) (Kv : K)
    (hold : ∃ r ∈ old, key r = Kv) (hnew : ∃ r ∈ df_new, key r = Kv) :
    upsert_csv key (some old) df_new =
      dedupLast key (old.filter (fun r => !(df_new.any (fun x => decide (key x = key r))))) ++
        dedupLast key df_new ∧
    (∃ r ∈ dedupLast key df_new, key r = Kv) ∧
    (dedupLast key df_new).find? (fun r => decide (key r = Kv)) =
      df_new.reverse.find? (fun r => decide (key r = Kv)) := by
  refine ⟨?_, ?_, ?_⟩
  · rw [upsert_csv]
    exact dedupLast_append key old df_new
  · exact (mem_key_dedupLast key Kv df_new).mpr hnew
  · exact dedupLast_find key Kv df_new

/-- Witness for the amended C3 at a concrete table. -/
theorem claim3_last_position_witness :
    upsert_csv (fun r : String × Nat => r.1) (some [("g", 7), ("h", 8)]) [("g", 9)] =
      dedupLast (fun r : String × Nat => r.1)
          ([("g", 7), ("h", 8)].filter
            (fun r => !([("g", 9)].any (fun x => decide (x.1 = r.1))))) ++
        dedupLast (fun r : String × Nat => r.1) [("g", 9)] ∧
    (∃ r ∈ dedupLast (fun r : String × Nat => r.1) [("g", 9)], r.1 = "g") ∧
    (dedupLast (fun r : String × Nat => r.1) [("g", 9)]).find?
        (fun r => decide (r.1 = "g")) =
      [("g", 9)].reverse.find? (fun r => decide (r.1 = "g")) :=
  claim3_last_position (fun r : String × Nat => r.1) [("g", 7), ("h", 8)] [("g", 9)] "g"
    (by decide) (by decide)

/-- C4 counterexample: with no existing table, a batch with an
internal duplicate key is still de-duplicated, so the merged table is
NOT "exactly the new rows": `[k→1, k→2]` merges to `[k→2]`. -/
theorem claim4_no_table_counterexample :
    upsert_csv (fun r : String × Nat => r.1) none [("k", 1), ("k", 2)] = [("k", 2)] ∧
    upsert_csv (fun r : String × Nat => r.1) none [("k", 1), ("k", 2)] ≠
      [("k", 1), ("k", 2)] :=
  ⟨rfl, by decide⟩

/-- C4 (amended): with no existing table the merged table is the batch
de-duplicated by key keeping the last occurrence; it equals the batch
exactly (same rows, batch order) whenever the batch's keys are
pairwise distinct. -/
theorem claim4_no_table {R K : Type} [DecidableEq K] (key : R → K) (df_new : List R) :
    upsert_csv key none df_new = dedupLast key df_new ∧
    ((df_new.map key).Nodup → upsert_csv key none df_new = df_new) := by
  refine ⟨rfl, fun h => ?_⟩
  rw [upsert_csv]
  exact dedupLast_eq_self key df_new h

/-- Witness for the amended C4: a duplicate-free batch passes through
unchanged. -/
theorem claim4_no_table_witness :
    upsert_csv (fun r : String × Nat => r.1) none [("a", 1), ("b", 2)] = [("a", 1), ("b", 2)] :=
  (claim4_no_table (fun r : String × Nat => r.1) [("a", 1), ("b", 2)]).2 (by decide)

/-- C5: merge idempotence — merging a table with unique keys with a
batch of rows value-identical to rows already stored yields a table
equal to the original up to row order. -/
theorem claim5_merge_idempotent {R K : Type} [DecidableEq K] [DecidableEq R] (key : R → K)
    (T df_new : List R) (hkeys : (T.map key).Nodup) (hsub : ∀ r ∈ df_new, r ∈ T) :
    List.Perm (upsert_csv key (some T) df_new) T := by
  rw [upsert_csv]
  have hTnodup : T.Nodup := List.Nodup.of_map key hkeys
  have hMsub : ∀ r ∈ dedupLast key (T ++ df_new), r ∈ T := by
    intro r hr
    rcases List.mem_append.mp ((dedupLast_sublist key (T ++ df_new)).subset hr) with h | h
    · exact h
    · exact hsub r h
  have hMnodup : (dedupLast key (T ++ df_new)).Nodup :=
    List.Nodup.of_map key (dedupLast_keys_nodup key (T ++ df_new))
  have hmem : ∀ r, r ∈ dedupLast key (T ++ df_new) ↔ r ∈ T := by
    intro r
    constructor
    · exact hMsub r
    · intro hrT
      obtain ⟨m, hmM, hmk⟩ := (mem_key_dedupLast key (key r) (T ++ df_new)).mpr
        ⟨r, List.mem_append.mpr (Or.inl hrT), rfl⟩
      have hmr : m = r := List.inj_on_of_nodup_map hkeys (hMsub m hmM) hrT hmk
      exact hmr ▸ hmM
  rw [List.perm_iff_count]
  intro a
  by_cases ha : a ∈ T
  · rw [List.count_eq_one_of_mem hMnodup ((hmem a).mpr ha),
      List.count_eq_one_of_mem hTnodup ha]
  · rw [List.count_eq_zero.mpr (fun hc => ha ((hmem a).mp hc)), List.count_eq_zero.mpr ha]

/-- Witness for C5: re-merging an already-stored row permutes the
table at most. -/
theorem claim5_merge_idempotent_witness :
    List.Perm
      (upsert_csv (fun r : String × Nat => r.1) (some [("a", 1), ("b", 2)]) [("a", 1)])
      [("a", 1), ("b", 2)] :=
  claim5_merge_idempotent (fun r : String × Nat => r.1) [("a", 1), ("b", 2)] [("a", 1)]
    (by decide) (by decide)

/-- C6: the ordered scoreboard candidate list starts with the live
date-keyed URL, splits into a live-family block followed by a
legacy-family block (every legacy URL after every live URL), and
contains the live "today" convenience URL exactly when the requested
date equals the current ET date. -/
theorem claim6_scoreboard_candidates (d today : Ymd) :
    (scoreboard_candidates d today).head? =
      some (liveScoreboardUrl (date_yyyymmdd d), Family.live) ∧
    (∃ lives legacies,
      scoreboard_candidates d today = lives ++ legacies ∧
      (∀ p ∈ lives, p.2 = Family.live) ∧
      (∀ p ∈ legacies, p.2 = Family.legacy)) ∧
    (todaysScoreboardUrl ∈ (scoreboard_candidates d today).map Prod.fst ↔ d = today) := by
  refine ⟨rfl, ?_, ?_⟩
  · refine ⟨[(liveScoreboardUrl (date_yyyymmdd d), Family.live)] ++
        (if d = today then [(todaysScoreboardUrl, Family.live)] else []),
      [(legacyScoreboardUrlV1 (date_yyyymmdd d), Family.legacy),
        (legacyScoreboardUrlV2 (date_yyyymmdd d), Family.legacy)], rfl, ?_, ?_⟩
    · intro p hp
      rcases List.mem_append.mp hp with h | h
      · rw [List.mem_singleton] at h
        rw [h]
      · split at h
        · rw [List.mem_singleton] at h
          rw [h]
        · simp at h
    · intro p hp
      rcases List.mem_cons.mp hp with h | h
      · rw [h]
      · rw [List.mem_singleton] at h
        rw [h]
  · by_cases h : d = today
    · refine iff_of_true ?_ h
      simp only [scoreboard_candidates, if_pos h]
      simp
    · refine iff_of_false (fun hmem => ?_) h
      simp only [scoreboard_candidates, if_neg h] at hmem
      rcases List.mem_map.mp hmem with ⟨p, hp, hfst⟩
      simp only [List.append_nil, List.mem_append, List.mem_singleton, List.mem_cons,
        List.not_mem_nil, or_false] at hp
      rcases hp with h1 | h1 | h1 <;> rw [h1] at hfst
      · exact liveScoreboardUrl_ne_todays (date_yyyymmdd d) hfst
      · exact legacyScoreboardUrlV1_ne_todays (date_yyyymmdd d) hfst
      · exact legacyScoreboardUrlV2_ne_todays (date_yyyymmdd d) hfst

/-- Witness for C6: on its own date the candidate list carries the
"today" URL. -/
theorem claim6_scoreboard_candidates_witness :
    todaysScoreboardUrl ∈ (scoreboard_candidates ⟨2024, 1, 15⟩ ⟨2024, 1, 15⟩).map Prod.fst :=
  (claim6_scoreboard_candidates ⟨2024, 1, 15⟩ ⟨2024, 1, 15⟩).2.2.mpr rfl

/-- C7 counterexample: the normalizer does raise on a malformed
entry.  With Python's exception channel modelled
(`parse_scoreboardE`), the document whose games list starts with the
truthy non-dict entry "oops" aborts with `AttributeError`
(`g.get("homeTeam")` on a string) — even though a well-formed entry
with a truthy `gameId` follows, which the claim says is preserved. -/
theorem claim7_raises_counterexample :
    parse_scoreboardE liveScoreboardBadEntry = Except.error "AttributeError" ∧
    (∃ g ∈ scoreboardEntries liveScoreboardBadEntry, (g.get "gameId").truthy = true) :=
  ⟨rfl, by decide⟩

/-- C7 (amended): whenever the scoreboard normalizer completes
without raising — i.e. `parse_scoreboardE`, the embedding carrying
Python's exception channel, returns a result — its output is exactly
`parse_scoreboard js`: every output record has a truthy (non-empty)
derived `gameId`, entries with an empty or absent id are excluded, and
every raw entry with a truthy derived `gameId` contributes its record.
A truthy non-object entry or container instead raises
(`AttributeError`/`TypeError`) and aborts the whole batch, so the
normalizer is not exception-free on arbitrary malformed documents. -/
theorem claim7_scoreboard_filter_amended (js : JVal) (rows : List Row)
    (h : parse_scoreboardE js = Except.ok rows) :
    rows = parse_scoreboard js ∧
    (∀ r ∈ rows, (rowGet r "gameId").truthy = true) ∧
    (js.truthy = true → ∀ g ∈ scoreboardEntries js, (g.get "gameId").truthy = true →
      mkScoreboardRow js g ∈ rows) := by
  rw [parse_scoreboardE] at h
  by_cases hT : js.truthy = true
  case neg =>
    rw [if_neg hT] at h
    cases h
    refine ⟨?_, ?_, ?_⟩
    · rw [parse_scoreboard, if_pos hT]
    · intro r hr
      simp at hr
    · intro hT'
      exact absurd hT' hT
  case pos =>
    rw [if_pos hT] at h
    by_cases hdict : isDict js = true
    case neg =>
      rw [if_neg hdict] at h
      exact Except.noConfusion h
    case pos =>
      rw [if_pos hdict] at h
      have hmain : rows = parse_scoreboard js := by
        by_cases hsrc : js.get "_source" = jstr "live"
        · rw [if_pos hsrc] at h
          by_cases hsb : isDict (pyOr (js.getD "scoreboard" (jobj [])) (jobj [])) = true
          case neg =>
            rw [if_neg hsb] at h
            exact Except.noConfusion h
          case pos =>
            rw [if_pos hsb] at h
            split at h
            · exact Except.noConfusion h
            · rename_i gl hit
              split at h
              · exact Except.noConfusion h
              · rename_i rws hmapped
                cases h
                have hgl : gl = (pyOr ((pyOr (js.getD "scoreboard" (jobj [])) (jobj [])).getD
                    "games" (jarr [])) (jarr [])).elems :=
                  iter_ok_elems _ _ (fun s => rfl) gl rws (pyOr_cases _ _) hit hmapped
                have hrws : rws = gl.map (mkLiveScoreboardRow (js.get "_ymd")) :=
                  mapRowsE_ok_map _ _ (mkLiveScoreboardRowE_ok (js.get "_ymd")) gl rws hmapped
                rw [parse_scoreboard, if_neg (by simp [hT]), hrws, hgl,
                  scoreboardEntries, if_pos hsrc]
                congr 1
                exact List.map_congr_left (fun g _ => (mkScoreboardRow_live js g hsrc).symm)
        · rw [if_neg hsrc] at h
          split at h
          · exact Except.noConfusion h
          · rename_i gl hit
            split at h
            · exact Except.noConfusion h
            · rename_i rws hmapped
              cases h
              have hgl : gl = (pyOr (js.get "games") (jarr [])).elems :=
                iter_ok_elems _ _ (fun s => rfl) gl rws (pyOr_cases _ _) hit hmapped
              have hrws : rws = gl.map (mkLegacyScoreboardRow (js.get "_ymd")) :=
                mapRowsE_ok_map _ _ (mkLegacyScoreboardRowE_ok (js.get "_ymd")) gl rws hmapped
              rw [parse_scoreboard, if_neg (by simp [hT]), hrws, hgl,
                scoreboardEntries, if_neg hsrc]
              congr 1
              exact List.map_congr_left (fun g _ => (mkScoreboardRow_legacy js g hsrc).symm)
      refine ⟨hmain, ?_, ?_⟩
      · intro r hr
        rw [hmain, parse_scoreboard] at hr
        split at hr
        · simp at hr
        · exact (List.mem_filter.mp hr).2
      · intro hT' g hg hgid
        rw [hmain, parse_scoreboard, if_neg (by simp [hT])]
        refine List.mem_filter.mpr ⟨List.mem_map.mpr ⟨g, hg, rfl⟩, ?_⟩
        rw [rowGet_mkScoreboardRow_gameId]
        exact hgid

/-- Witness for the amended C7: the two-entry document (one good
game, one entry with no id) parses without raising, and the theorem
applies to its successful run. -/
theorem claim7_scoreboard_filter_amended_witness :
    parse_scoreboard liveScoreboardTwoEntries = parse_scoreboard liveScoreboardTwoEntries ∧
    (∀ r ∈ parse_scoreboard liveScoreboardTwoEntries, (rowGet r "gameId").truthy = true) ∧
    (liveScoreboardTwoEntries.truthy = true →
      ∀ g ∈ scoreboardEntries liveScoreboardTwoEntries, (g.get "gameId").truthy = true →
        mkScoreboardRow liveScoreboardTwoEntries g ∈
          parse_scoreboard liveScoreboardTwoEntries) :=
  claim7_scoreboard_filter_amended liveScoreboardTwoEntries
    (parse_scoreboard liveScoreboardTwoEntries) rfl

theorem stripTagKeys_mkScoreboardRow_keys (js g : JVal) :
    (stripTagKeys (mkScoreboardRow js g)).map Prod.fst =
      ["gameId", "gameCode", "gameDateEt", "gameStatusText", "period", "gameClock",
        "arenaName", "homeTeamId", "homeTeamTricode", "homeScore", "awayTeamId",
        "awayTeamTricode", "awayScore", "gameDateYmd"] := by
  rw [mkScoreboardRow]
  split <;> rfl

/-- C8 counterexample: the strip applied before persistence removes
only underscore-prefixed keys, so for the concrete scoreboard document
the persisted record still carries the `gameDateYmd` fetch-key tag as
a column (while `_source` is stripped), contradicting "neither is a
column of the persisted games table". -/
theorem claim8_counterexample :
    (parse_scoreboard liveScoreboardTwoEntries).length = 1 ∧
    ∀ r ∈ parse_scoreboard liveScoreboardTwoEntries,
      "gameDateYmd" ∈ (stripTagKeys r).map Prod.fst ∧
      "_source" ∉ (stripTagKeys r).map Prod.fst := by decide

/-- C8 (amended): before persistence the strip removes exactly the
underscore-prefixed tags: the `_source` family tag is not a column of
the persisted games table, but the `gameDateYmd` fetch-key tag
remains one. -/
theorem claim8_strip_source_only (js : JVal) :
    ∀ r ∈ parse_scoreboard js,
      "_source" ∉ (stripTagKeys r).map Prod.fst ∧
      "gameDateYmd" ∈ (stripTagKeys r).map Prod.fst := by
  intro r hr
  rw [parse_scoreboard] at hr
  split at hr
  · simp at hr
  · obtain ⟨g, hg, rfl⟩ := List.mem_map.mp (List.mem_filter.mp hr).1
    rw [stripTagKeys_mkScoreboardRow_keys]
    exact ⟨by decide, by decide⟩

/-- Witness for the amended C8 on the concrete document's record. -/
theorem claim8_strip_source_only_witness :
    "_source" ∉
      (stripTagKeys (mkScoreboardRow liveScoreboardTwoEntries
        (jobj [("gameId", jstr "0022400001"),
          ("homeTeam", jobj [("teamId", jnum 1), ("score", jnum 110)]),
          ("awayTeam", jobj [("teamId", jnum 2), ("score", jnum 100)])]))).map Prod.fst ∧
    "gameDateYmd" ∈
      (stripTagKeys (mkScoreboardRow liveScoreboardTwoEntries
        (jobj [("gameId", jstr "0022400001"),
          ("homeTeam", jobj [("teamId", jnum 1), ("score", jnum 110)]),
          ("awayTeam", jobj [("teamId", jnum 2), ("score", jnum 100)])]))).map Prod.fst :=
  claim8_strip_source_only liveScoreboardTwoEntries _ (by decide)

/-- C9: a successfully decoded but falsy (empty) document is treated
by both fetchers exactly like a transport failure: turning such
responses into failures changes nothing, a transport yielding only
falsy documents resolves to null once every candidate is exhausted,
and a returned document is always truthy — the empty document is
never returned. -/
theorem claim9_empty_doc_is_failure (t : Transport) (d today : Ymd) (gid ymd : String) :
    fetch_scoreboard (normalizeTransport t) d today = fetch_scoreboard t d today ∧
    fetch_boxscore (normalizeTransport t) gid ymd = fetch_boxscore t gid ymd ∧
    ((∀ u js, t u = some js → js.truthy = false) →
      fetch_scoreboard t d today = none ∧ fetch_boxscore t gid ymd = none) ∧
    (∀ doc, fetch_scoreboard t d today = some doc → doc.truthy = true) ∧
    (∀ doc, fetch_boxscore t gid ymd = some doc → doc.truthy = true) := by
  refine ⟨?_, ?_, ?_, ?_, ?_⟩
  · simp only [fetch_scoreboard]
    rw [tryUrls_normalize, tryUrls_normalize]
  · simp only [fetch_boxscore]
    rw [tryUrls_normalize, tryUrls_normalize]
  · intro h
    constructor
    · simp only [fetch_scoreboard]
      rw [tryUrls_all_falsy t _ h, tryUrls_all_falsy t _ h]
    · simp only [fetch_boxscore]
      rw [tryUrls_all_falsy t _ h, tryUrls_all_falsy t _ h]
      split
      · rename_i js heq
        exact Option.noConfusion heq
      · split <;> rfl
  · intro doc hdoc
    simp only [fetch_scoreboard] at hdoc
    cases h1 : tryUrls t
        ([liveScoreboardUrl (date_yyyymmdd d)] ++
          (if d = today then [todaysScoreboardUrl] else [])) with
    | some js =>
      rw [h1] at hdoc
      cases hdoc
      rw [tagScoreboard]
      exact set_truthy _ _ _ (set_truthy _ _ _ (tryUrls_truthy t _ js h1))
    | none =>
      rw [h1] at hdoc
      cases h2 : tryUrls t
          [legacyScoreboardUrlV1 (date_yyyymmdd d), legacyScoreboardUrlV2 (date_yyyymmdd d)] with
      | some js =>
        rw [h2] at hdoc
        cases hdoc
        rw [tagScoreboard]
        exact set_truthy _ _ _ (set_truthy _ _ _ (tryUrls_truthy t _ js h2))
      | none =>
        rw [h2] at hdoc
        exact Option.noConfusion hdoc
  · intro doc hdoc
    rw [fetch_boxscore] at hdoc
    cases h1 : tryUrls t [liveBoxscoreUrl gid] with
    | some js =>
      rw [h1] at hdoc
      cases hdoc
      exact set_truthy _ _ _ (tryUrls_truthy t _ js h1)
    | none =>
      rw [h1] at hdoc
      split at hdoc
      · rename_i js' heq
        exact Option.noConfusion heq
      · split at hdoc
        · cases h2 : tryUrls t
              [legacyBoxscoreUrl "https://data.nba.net/10s/prod/v1" ymd gid,
                legacyBoxscoreUrl "https://data.nba.net/10s/prod/v2" ymd gid] with
          | some js =>
            rw [h2] at hdoc
            cases hdoc
            exact set_truthy _ _ _ (tryUrls_truthy t _ js h2)
          | none =>
            rw [h2] at hdoc
            exact Option.noConfusion hdoc
        · exact Option.noConfusion hdoc

/-- Witness for C9: a transport that always answers with the empty
JSON object resolves both fetchers to null. -/
theorem claim9_empty_doc_is_failure_witness :
    fetch_scoreboard emptyDocTransport ⟨2024, 1, 15⟩ ⟨2024, 1, 15⟩ = none ∧
    fetch_boxscore emptyDocTransport "0022400001" "20240115" = none :=
  (claim9_empty_doc_is_failure emptyDocTransport ⟨2024, 1, 15⟩ ⟨2024, 1, 15⟩ "0022400001"
      "20240115").2.2.1
    (fun u js h => by injection h with h2; rw [← h2]; rfl)

end NbaIngest
